import Mathlib

/-!
Shallow embedding of the heat-flux core of `src/hff_utils.py`
(philly_ice_forecast).  Numeric values are modelled as exact rationals
(`Rat`); the Python floats of the source are IEEE doubles, so every exact
rational identity proved here implies the corresponding float identity up
to rounding, which is well inside the 1e-9 tolerances the specification
quotes.  Python exceptions are modelled with `Except PyErr`.
-/

/-- Exceptions the embedded code can raise.  `keyError` models Python's
`KeyError` (raised by the `tz_map[tz_string]` dict lookup), `valueError`
models the explicit `raise ValueError` of the coordinate fallback,
`zeroDivisionError` models Python's scalar division by zero.
`invalidDepthError` is the error class the specification prescribes for
the cooling-rate model; the source never raises it, and the constructor
exists only so that theorems can state that fact. -/
inductive PyErr where
  | keyError
  | valueError
  | zeroDivisionError
  | invalidDepthError
  deriving DecidableEq

/-- Stefan–Boltzmann constant `sbc = 5.670374419e-8` (W m⁻² K⁻⁴) as in
`calc_downwelling_LW` and `calc_upwelling_LW`. -/
def sbc : Rat := 5670374419 / 10 ^ 17

/-- `calc_solar(q0_a_t, R, Cl)` of hff_utils.py line 87:
`q_sw = q0_a_t * (1 - R) * (1 - 0.65 * Cl ** 2)`. -/
def calc_solar (q0_a_t R Cl : Rat) : Rat :=
  q0_a_t * (1 - R) * (1 - 65 / 100 * Cl ^ 2)

/-- `calc_downwelling_LW(T_air, Cl)` of hff_utils.py line 93:
`Tak = T_air + 273.15`, `emissivity = 0.937e-5 * (1 + 0.17 * Cl**2) * Tak**2`,
`q_atm = emissivity * sbc * Tak**4`. -/
def calc_downwelling_LW (T_air Cl : Rat) : Rat :=
  let Tak := T_air + 27315 / 100
  let emissivity := 937 / 10 ^ 8 * (1 + 17 / 100 * Cl ^ 2) * Tak ^ 2
  emissivity * sbc * Tak ^ 4

/-- `calc_upwelling_LW(T_water)` of hff_utils.py line 102:
`Twk = T_water + 273.15`, `q_b = 0.97 * sbc * Twk**4`. -/
def calc_upwelling_LW (T_water : Rat) : Rat :=
  let Twk := T_water + 27315 / 100
  97 / 100 * sbc * Twk ^ 4

/-- `calc_cooling_rate(q_net, D)` of hff_utils.py line 197:
`cooling_rate = q_net / (pw * cpw * D) * 60` with `pw = 1000`,
`cpw = 4182`.  The source performs no validation of `D`; at `D = 0` the
bare division fails with Python's `ZeroDivisionError` for scalar operands
(array operands would silently become infinities) — in either case no
`InvalidDepthError` is raised, which is what the theorems below use. -/
def calc_cooling_rate (q_net D : Rat) : Except PyErr Rat :=
  if D = 0 then Except.error PyErr.zeroDivisionError
  else Except.ok (q_net / (1000 * 4182 * D) * 60)

/-- One row of the energy table of `build_energy_df`, hff_utils.py
line 205: the five signed flux columns. -/
structure EnergyRow where
  downwellingSW : Rat
  downwellingLW : Rat
  upwellingLW : Rat
  sensibleHeat : Rat
  latentHeat : Rat
  deriving DecidableEq

/-- `build_energy_df(q_sw, q_atm, q_b, q_l, q_h)` of hff_utils.py
line 205, per timestamp: columns `downwelling SW = q_sw`,
`downwelling LW = q_atm`, `upwelling LW = -q_b`, `sensible heat = q_h`,
`latent heat = -q_l`. -/
def build_energy_df (q_sw q_atm q_b q_l q_h : Rat) : EnergyRow :=
  { downwellingSW := q_sw
    downwellingLW := q_atm
    upwellingLW := -q_b
    sensibleHeat := q_h
    latentHeat := -q_l }

/-- The derived `net flux` column of `build_energy_df`, hff_utils.py
line 216: `energy_df.sum(axis=1)`, the row-sum of the five columns. -/
def EnergyRow.netFlux (r : EnergyRow) : Rat :=
  r.downwellingSW + r.downwellingLW + r.upwellingLW + r.sensibleHeat +
    r.latentHeat

/-- The net-flux expression of `calc_fluxes`, hff_utils.py line 192
(the spec's `net_flux`): `q_net = q_sw + q_atm - q_b + q_h - q_l`. -/
def net_flux (q_sw q_atm q_b q_l q_h : Rat) : Rat :=
  q_sw + q_atm - q_b + q_h - q_l

/-- `tz_to_gmt_offset(tz_string)` of hff_utils.py line 220: the literal
ten-entry dict `tz_map`; an unmapped key raises Python's `KeyError`. -/
def tz_to_gmt_offset (tz_string : String) : Except PyErr String :=
  if tz_string = ("AKST") then Except.ok ("Etc/GMT+9")
  else if tz_string = ("AKDT") then Except.ok ("Etc/GMT+8")
  else if tz_string = ("PST") then Except.ok ("Etc/GMT+8")
  else if tz_string = ("PDT") then Except.ok ("Etc/GMT+7")
  else if tz_string = ("MST") then Except.ok ("Etc/GMT+7")
  else if tz_string = ("MDT") then Except.ok ("Etc/GMT+6")
  else if tz_string = ("CST") then Except.ok ("Etc/GMT+6")
  else if tz_string = ("CDT") then Except.ok ("Etc/GMT+5")
  else if tz_string = ("EST") then Except.ok ("Etc/GMT+5")
  else if tz_string = ("EDT") then Except.ok ("Etc/GMT+4")
  else Except.error PyErr.keyError

/-- A forecast window: a list of rows keyed by timestamp (`Nat`, hours)
carrying a numeric row value, in fetch order. -/
abbrev Window := List (Nat × Rat)

/-- First row value stored under timestamp `T`, mirroring a lookup in a
pandas frame whose index may (before deduplication) repeat. -/
def lookupTs : Window → Nat → Option Rat
  | [], _ => none
  | (t, v) :: rest, T => if t = T then some v else lookupTs rest T

/-- Helper for `dedupKeepFirst`: drop every row whose timestamp already
occurred, `seen` being the timestamps kept so far. -/
def dropDupTs (seen : List Nat) : Window → Window
  | [] => []
  | (t, v) :: rest =>
    if t ∈ seen then dropDupTs seen rest
    else (t, v) :: dropDupTs (t :: seen) rest

/-- `df[~df.index.duplicated(keep='first')]` of hff_utils.py line 75:
keep each timestamp's first occurrence, in order. -/
def dedupKeepFirst (w : Window) : Window :=
  dropDupTs [] w

/-- The concat-then-deduplicate assembly of `get_full_forecast`,
hff_utils.py lines 71–75: `pd.concat` of the windows in input order
followed by first-occurrence deduplication. -/
def assembleWindows (ws : List Window) : Window :=
  dedupKeepFirst ws.flatten

/-- The coordinate fallback shared verbatim by `get_full_forecast`
(hff_utils.py lines 61–68) and `calc_fluxes` (lines 143–150): when `lat`
or `lon` is `None`, BOTH are re-read from `weather_forecast.LOCATION`
(modelled by `defaultLoc`); when that is unavailable a `ValueError` is
raised. -/
def resolveLocation (lat lon : Option Rat) (defaultLoc : Option (Rat × Rat)) :
    Except PyErr (Rat × Rat) :=
  match lat, lon with
  | some a, some b => Except.ok (a, b)
  | _, _ =>
    match defaultLoc with
    | some p => Except.ok p
    | none => Except.error PyErr.valueError

/-- `get_full_forecast(lat, lon)` of hff_utils.py lines 58–77, with the
network fetch `get_48h_hourly_forecast` abstracted as `fetch lat lon
aheadhour`: resolve coordinates, fetch the windows at lead hours
0, 48, 96, 107 in that order, concatenate and deduplicate keeping the
first occurrence. -/
def get_full_forecast (fetch : Rat → Rat → Nat → Window)
    (lat lon : Option Rat) (defaultLoc : Option (Rat × Rat)) :
    Except PyErr Window :=
  (resolveLocation lat lon defaultLoc).map fun c =>
    assembleWindows
      [fetch c.1 c.2 0, fetch c.1 c.2 48, fetch c.1 c.2 96, fetch c.1 c.2 107]

/-! ## Helper lemmas -/

/-- A timestamp found in the left part of a concatenation is found, with
the same value, in the concatenation. -/
theorem lookupTs_append_some (w₁ w₂ : Window) (T : Nat) (v : Rat)
    (h : lookupTs w₁ T = some v) : lookupTs (w₁ ++ w₂) T = some v := by
  induction w₁ with
  | nil => exact absurd h (by simp [lookupTs])
  | cons p rest ih =>
    obtain ⟨t, val⟩ := p
    simp only [List.cons_append]
    by_cases ht : t = T
    · simpa [lookupTs, ht] using by simpa [lookupTs, ht] using h
    · simp only [lookupTs, if_neg ht] at h ⊢
      exact ih h

/-- First-occurrence deduplication does not change the first value found
at any timestamp not already marked as seen. -/
theorem lookupTs_dropDupTs (w : Window) :
    ∀ (seen : List Nat) (T : Nat), T ∉ seen →
      lookupTs (dropDupTs seen w) T = lookupTs w T := by
  induction w with
  | nil => intro seen T _; rfl
  | cons p rest ih =>
    intro seen T hT
    obtain ⟨t, val⟩ := p
    by_cases hts : t ∈ seen
    · have htT : t ≠ T := fun he => hT (he ▸ hts)
      simp only [dropDupTs, if_pos hts, lookupTs, if_neg htT]
      exact ih seen T hT
    · by_cases htT : t = T
      · subst htT
        simp [dropDupTs, if_neg hts, lookupTs]
      · simp only [dropDupTs, if_neg hts, lookupTs, if_neg htT]
        exact ih (t :: seen) T
          (by simp only [List.mem_cons, not_or]
              exact ⟨fun e => htT e.symm, hT⟩)

/-- First-occurrence deduplication preserves the first value found at
every timestamp. -/
theorem lookupTs_dedupKeepFirst (w : Window) (T : Nat) :
    lookupTs (dedupKeepFirst w) T = lookupTs w T :=
  lookupTs_dropDupTs w [] T (by simp)

/-! ## Claims -/

/-- C3: for all finite component inputs, the `net flux` column of the
energy table (row-sum of the five signed columns of `build_energy_df`)
equals `net_flux(q_sw, q_atm, q_b, q_l, q_h) = q_sw + q_atm - q_b + q_h - q_l`
element-wise.  In exact rational arithmetic the two agree exactly, which
implies the 1e-9 relative tolerance the spec allows for floats. -/
theorem energy_table_net_flux_agrees (q_sw q_atm q_b q_l q_h : Rat) :
    (build_energy_df q_sw q_atm q_b q_l q_h).netFlux =
      net_flux q_sw q_atm q_b q_l q_h := by
  simp only [build_energy_df, EnergyRow.netFlux, net_flux]
  ring

/-- C9: the timezone resolver is not injective: AKDT and PST both map to
Etc/GMT+8, PDT and MST to Etc/GMT+7, MDT and CST to Etc/GMT+6, CDT and
EST to Etc/GMT+5, while the four pairs are pairwise distinct
abbreviations — so the offset does not determine the abbreviation. -/
theorem tz_to_gmt_offset_not_injective :
    (tz_to_gmt_offset ("AKDT") = Except.ok ("Etc/GMT+8") ∧
      tz_to_gmt_offset ("PST") = Except.ok ("Etc/GMT+8") ∧
      ("AKDT") ≠ ("PST")) ∧
    (tz_to_gmt_offset ("PDT") = Except.ok ("Etc/GMT+7") ∧
      tz_to_gmt_offset ("MST") = Except.ok ("Etc/GMT+7") ∧
      ("PDT") ≠ ("MST")) ∧
    (tz_to_gmt_offset ("MDT") = Except.ok ("Etc/GMT+6") ∧
      tz_to_gmt_offset ("CST") = Except.ok ("Etc/GMT+6") ∧
      ("MDT") ≠ ("CST")) ∧
    (tz_to_gmt_offset ("CDT") = Except.ok ("Etc/GMT+5") ∧
      tz_to_gmt_offset ("EST") = Except.ok ("Etc/GMT+5") ∧
      ("CDT") ≠ ("EST")) := by
  refine ⟨⟨rfl, rfl, ?_⟩, ⟨rfl, rfl, ?_⟩, ⟨rfl, rfl, ?_⟩, ⟨rfl, rfl, ?_⟩⟩ <;>
    decide

/-- C10: at the public interface of forecast assembly (and, through the
shared `resolveLocation` block, flux computation), supplying exactly one
of the two coordinates discards the supplied one as well: both
coordinates are replaced by the configured default location's values, and
the windows are fetched at the default coordinates. -/
theorem partial_coordinates_discarded (fetch : Rat → Rat → Nat → Window)
    (a dlat dlon : Rat) :
    resolveLocation (some a) none (some (dlat, dlon)) = Except.ok (dlat, dlon) ∧
    resolveLocation none (some a) (some (dlat, dlon)) = Except.ok (dlat, dlon) ∧
    get_full_forecast fetch (some a) none (some (dlat, dlon)) =
      Except.ok (assembleWindows
        [fetch dlat dlon 0, fetch dlat dlon 48,
          fetch dlat dlon 96, fetch dlat dlon 107]) ∧
    get_full_forecast fetch none (some a) (some (dlat, dlon)) =
      get_full_forecast fetch none none (some (dlat, dlon)) :=
  ⟨rfl, rfl, rfl, rfl⟩

/-- C4: for overlapping forecast windows A and B sharing timestamp T,
with A first and B second in the assembler's input order, A reporting v₁
and B reporting v₂ ≠ v₁ at T, the assembled deduplicated series contains
v₁ at T (first occurrence in input order wins). -/
theorem assembled_series_keeps_first_value (A B : Window) (rest : List Window)
    (T : Nat) (v₁ v₂ : Rat)
    (hA : lookupTs A T = some v₁) (_hB : lookupTs B T = some v₂)
    (_hne : v₁ ≠ v₂) :
    lookupTs (assembleWindows (A :: B :: rest)) T = some v₁ := by
  show lookupTs (dedupKeepFirst (A :: B :: rest).flatten) T = some v₁
  rw [lookupTs_dedupKeepFirst]
  simp only [List.flatten_cons]
  exact lookupTs_append_some A (B ++ rest.flatten) T v₁ hA

/-- C4 witness: two single-row windows overlapping at timestamp 5 with
distinct values 1 and 2; the assembled series keeps the first value 1. -/
theorem assembled_series_keeps_first_value_witness :
    lookupTs (assembleWindows [[(5, (1 : Rat))], [(5, (2 : Rat))]]) 5 =
      some 1 :=
  assembled_series_keeps_first_value [(5, 1)] [(5, 2)] [] 5 1 2 rfl rfl
    (by norm_num)

/-- C2: the timezone resolver maps exactly the ten abbreviations AKST,
AKDT, PST, PDT, MST, MDT, CST, CDT, EST, EDT to their fixed UTC-offset
identifiers, and every other input token raises the lookup error (no
fuzzy matching). -/
theorem tz_to_gmt_offset_exactly_ten :
    tz_to_gmt_offset ("AKST") = Except.ok ("Etc/GMT+9") ∧
    tz_to_gmt_offset ("AKDT") = Except.ok ("Etc/GMT+8") ∧
    tz_to_gmt_offset ("PST") = Except.ok ("Etc/GMT+8") ∧
    tz_to_gmt_offset ("PDT") = Except.ok ("Etc/GMT+7") ∧
    tz_to_gmt_offset ("MST") = Except.ok ("Etc/GMT+7") ∧
    tz_to_gmt_offset ("MDT") = Except.ok ("Etc/GMT+6") ∧
    tz_to_gmt_offset ("CST") = Except.ok ("Etc/GMT+6") ∧
    tz_to_gmt_offset ("CDT") = Except.ok ("Etc/GMT+5") ∧
    tz_to_gmt_offset ("EST") = Except.ok ("Etc/GMT+5") ∧
    tz_to_gmt_offset ("EDT") = Except.ok ("Etc/GMT+4") ∧
    ∀ s : String,
      s ∉ (["AKST", "AKDT", "PST", "PDT", "MST",
            "MDT", "CST", "CDT", "EST", "EDT"] : List String) →
        tz_to_gmt_offset s = Except.error PyErr.keyError := by
  refine ⟨rfl, rfl, rfl, rfl, rfl, rfl, rfl, rfl, rfl, rfl, ?_⟩
  intro s hs
  simp only [List.mem_cons, List.not_mem_nil, or_false, not_or] at hs
  obtain ⟨n₁, n₂, n₃, n₄, n₅, n₆, n₇, n₈, n₉, n₁₀⟩ := hs
  simp [tz_to_gmt_offset, n₁, n₂, n₃, n₄, n₅, n₆, n₇, n₈, n₉, n₁₀]

/-- C2 witness: the token GMT is not one of the ten abbreviations and the
resolver rejects it with the lookup error. -/
theorem tz_to_gmt_offset_exactly_ten_witness :
    tz_to_gmt_offset ("GMT") = Except.error PyErr.keyError :=
  tz_to_gmt_offset_exactly_ten.2.2.2.2.2.2.2.2.2.2 ("GMT") (by decide)

/-- C5: for every q_net and every depth D ≠ 0, the cooling-rate operation
returns `q_net / (1000 * 4182 * D) * 60` °C per minute; in particular
`calc_cooling_rate (-100) 2` returns `-1/1394 ≈ -0.000718` °C/min (within
1e-6 of the spec's quoted value). -/
theorem calc_cooling_rate_formula :
    (∀ q_net D : Rat, D ≠ 0 →
      calc_cooling_rate q_net D =
        Except.ok (q_net / (1000 * 4182 * D) * 60)) ∧
    calc_cooling_rate (-100) 2 = Except.ok (-(1 / 1394)) ∧
    |(-(1 / 1394) : Rat) - (-(718 / 10 ^ 6))| < 1 / 10 ^ 6 := by
  refine ⟨fun q_net D hD => ?_, by norm_num [calc_cooling_rate],
    by rw [abs_sub_lt_iff]; constructor <;> norm_num⟩
  simp [calc_cooling_rate, hD]

/-- C5 witness: the cooling-rate formula applied at the spec's example
input q_net = -100 W/m², D = 2 m. -/
theorem calc_cooling_rate_formula_witness :
    calc_cooling_rate (-100) 2 = Except.ok (-100 / (1000 * 4182 * 2) * 60) :=
  calc_cooling_rate_formula.1 (-100) 2 (by norm_num)

/-- C1 counterexample: at q_net = 100, D = -2 the cooling-rate operation
returns a value — it does not raise `InvalidDepthError` for negative
depth, refuting the claim as stated. -/
theorem calc_cooling_rate_negative_depth_returns_value :
    calc_cooling_rate 100 (-2) = Except.ok (-(1 / 1394)) ∧
    Except.ok (-(1 / 1394)) ≠
      (Except.error PyErr.invalidDepthError : Except PyErr Rat) :=
  ⟨by norm_num [calc_cooling_rate], by simp⟩

/-- C1 amended: the cooling-rate operation performs no depth validation
and never raises `InvalidDepthError`: for every D < 0 it returns the
finite value `q_net / (1000 * 4182 * D) * 60`, and at D = 0 the bare
division fails with a `ZeroDivisionError` (scalar semantics; array
operands would silently become infinities), not `InvalidDepthError`. -/
theorem calc_cooling_rate_no_depth_validation (q_net D : Rat) (hD : D ≤ 0) :
    calc_cooling_rate q_net D ≠ Except.error PyErr.invalidDepthError ∧
    (D < 0 → calc_cooling_rate q_net D =
      Except.ok (q_net / (1000 * 4182 * D) * 60)) ∧
    (D = 0 → calc_cooling_rate q_net D =
      Except.error PyErr.zeroDivisionError) := by
  by_cases h0 : D = 0
  · subst h0
    exact ⟨by simp [calc_cooling_rate], fun h => absurd h (by norm_num),
      fun _ => by simp [calc_cooling_rate]⟩
  · exact ⟨by simp [calc_cooling_rate, h0],
      fun _ => by simp [calc_cooling_rate, h0], fun h => absurd h h0⟩

/-- C1 amended witness: at q_net = 100, D = -2 (a non-positive depth) no
`InvalidDepthError` is raised. -/
theorem calc_cooling_rate_no_depth_validation_witness :
    calc_cooling_rate 100 (-2) ≠ Except.error PyErr.invalidDepthError :=
  (calc_cooling_rate_no_depth_validation 100 (-2) (by norm_num)).1

/-- C6 counterexample: with ghi = 1 ≥ 0 and albedo R = 2 ≥ 0 the factor
(1 - R) is negative, so the shortwave flux strictly INCREASES from
Cl = 0 to Cl = 1 — the claim as stated (monotone non-increasing for all
R ≥ 0) is false. -/
theorem calc_solar_not_nonincreasing_for_albedo_above_one :
    ¬ (∀ ghi R Cl₁ Cl₂ : Rat, 0 ≤ ghi → 0 ≤ R →
        0 ≤ Cl₁ → Cl₁ ≤ Cl₂ → Cl₂ ≤ 1 →
        calc_solar ghi R Cl₂ ≤ calc_solar ghi R Cl₁) := by
  intro h
  have h10 := h 1 2 0 1 (by norm_num) (by norm_num) (by norm_num)
    (by norm_num) (by norm_num)
  norm_num [calc_solar] at h10

/-- C6 amended: for fixed ghi ≥ 0 and albedo 0 ≤ R ≤ 1 (an albedo is a
reflectance fraction; the pipeline uses R = 0.15), the shortwave flux
`calc_solar ghi R Cl = ghi * (1 - R) * (1 - 0.65 * Cl^2)` is monotone
non-increasing in the cloud fraction Cl over [0, 1]. -/
theorem calc_solar_nonincreasing_in_cloud (ghi R Cl₁ Cl₂ : Rat)
    (hghi : 0 ≤ ghi) (_hR0 : 0 ≤ R) (hR1 : R ≤ 1)
    (hc0 : 0 ≤ Cl₁) (hcc : Cl₁ ≤ Cl₂) (_hc1 : Cl₂ ≤ 1) :
    calc_solar ghi R Cl₂ ≤ calc_solar ghi R Cl₁ := by
  have hgr : 0 ≤ ghi * (1 - R) := mul_nonneg hghi (by linarith)
  have hsq : Cl₁ ^ 2 ≤ Cl₂ ^ 2 := by nlinarith
  simp only [calc_solar]
  nlinarith [mul_nonneg hgr (show (0 : Rat) ≤ Cl₂ ^ 2 - Cl₁ ^ 2 by linarith)]

/-- C6 amended witness: at ghi = 800, R = 0.15, raising the cloud
fraction from 0 to 0.5 does not increase the shortwave flux. -/
theorem calc_solar_nonincreasing_in_cloud_witness :
    calc_solar 800 (15 / 100) (1 / 2) ≤ calc_solar 800 (15 / 100) 0 :=
  calc_solar_nonincreasing_in_cloud 800 (15 / 100) 0 (1 / 2) (by norm_num)
    (by norm_num) (by norm_num) (by norm_num) (by norm_num) (by norm_num)

/-- C7 counterexample: the domain really is unrestricted, and below
absolute zero the T⁴ law reverses: -1000 < -500 but
`calc_upwelling_LW (-1000) > calc_upwelling_LW (-500)`, so the flux is
not strictly increasing over every real input. -/
theorem calc_upwelling_LW_decreasing_below_absolute_zero :
    (-1000 : Rat) < -500 ∧
    calc_upwelling_LW (-500) < calc_upwelling_LW (-1000) := by
  constructor
  · norm_num
  · show 97 / 100 * sbc * ((-500 : Rat) + 27315 / 100) ^ 4 <
      97 / 100 * sbc * ((-1000 : Rat) + 27315 / 100) ^ 4
    norm_num [sbc]

/-- C7 amended: the upwelling longwave flux
`calc_upwelling_LW T = 0.97 * σ * (T + 273.15)^4` is strictly increasing
in the water temperature on the physical domain T ≥ -273.15 °C
(non-negative Kelvin); no range validation is performed by the code. -/
theorem calc_upwelling_LW_strictly_increasing (T₁ T₂ : Rat)
    (h1 : -(27315 / 100) ≤ T₁) (h2 : T₁ < T₂) :
    calc_upwelling_LW T₁ < calc_upwelling_LW T₂ := by
  have hx : (0 : Rat) ≤ T₁ + 27315 / 100 := by linarith
  have hxy : T₁ + 27315 / 100 < T₂ + 27315 / 100 := by linarith
  have hpow : (T₁ + 27315 / 100) ^ 4 < (T₂ + 27315 / 100) ^ 4 :=
    pow_lt_pow_left₀ hxy hx (by norm_num)
  have hc : (0 : Rat) < 97 / 100 * sbc := by norm_num [sbc]
  show 97 / 100 * sbc * (T₁ + 27315 / 100) ^ 4 <
    97 / 100 * sbc * (T₂ + 27315 / 100) ^ 4
  exact mul_lt_mul_of_pos_left hpow hc

/-- C7 amended witness: warming the water surface from 0 °C to 10 °C
strictly increases the upwelling longwave flux. -/
theorem calc_upwelling_LW_strictly_increasing_witness :
    calc_upwelling_LW 0 < calc_upwelling_LW 10 :=
  calc_upwelling_LW_strictly_increasing 0 10 (by norm_num) (by norm_num)

/-- C8 counterexample: `calc_downwelling_LW 10 0` is below 280 W/m², so
it does not equal 300.5 W/m² to 3 significant figures (it misses even a
0.5 % relative tolerance by more than a factor of ten). -/
theorem calc_downwelling_LW_example_not_300 :
    calc_downwelling_LW 10 0 < 280 ∧
    ¬ (|calc_downwelling_LW 10 0 - 3005 / 10| ≤ 3005 / 10 * (5 / 1000)) := by
  constructor
  · show 937 / 10 ^ 8 * (1 + 17 / 100 * (0 : Rat) ^ 2) *
        ((10 : Rat) + 27315 / 100) ^ 2 * sbc *
        ((10 : Rat) + 27315 / 100) ^ 4 < 280
    norm_num [sbc]
  · rw [not_le, lt_abs]
    right
    show 3005 / 10 * (5 / 1000) <
      -(937 / 10 ^ 8 * (1 + 17 / 100 * (0 : Rat) ^ 2) *
          ((10 : Rat) + 27315 / 100) ^ 2 * sbc *
          ((10 : Rat) + 27315 / 100) ^ 4 - 3005 / 10)
    norm_num [sbc]

/-- C8 amended: for T_air_C = 10 and Cl = 0 the downwelling longwave
operation (Tk = 283.15, ε = 0.937e-5 * Tk², flux ε * σ * Tk⁴) returns
approximately 273.8 W/m² (not the spec's 300.5): the exact rational value
lies within 0.1 of 273.8. -/
theorem calc_downwelling_LW_example_value :
    |calc_downwelling_LW 10 0 - 2738 / 10| < 1 / 10 := by
  rw [abs_sub_lt_iff]
  constructor <;>
  · show _
    simp only [calc_downwelling_LW]
    norm_num [sbc]
